import Mathlib

/-!
Verification of the OSUE-2020 http-testsuite repository.

The repository ships a black-box conformance harness (httptest.py,
servertest.py, clienttest.py) for an external HTTP/1.1 client and server
pair; the client and server themselves are not part of the repository.
This development embeds, shallowly:

* the pure check logic of the harness (`HttpTest.in_response_header`,
  `notin_response_header`, `verify_content_length`,
  `compare_response_body`, `is_statuscode`, `does_print` in httptest.py),
  translated directly from the Python source; and
* the client and server under test, modelled from the specification
  (their code is absent from the repository; the harness's expectations,
  embedded below as well, pin their required behaviour where the two
  disagree).

Bytes are `Nat`s, header fields are `(String × String)` pairs in wire
order, and the per-connection server behaviour is a total function from
the request to the response, with the wall clock passed explicitly.
-/

/-- Splits a character list on every occurrence of `sep`, keeping empty
segments, exactly like Python's `str.split(" ")` used on the request line
(spec §4.1: request line split on single-space separators). -/
def splitChars (sep : Char) : List Char → List (List Char)
  | [] => [[]]
  | c :: rest =>
    let r := splitChars sep rest
    if c == sep then [] :: r
    else
      match r with
      | t :: ts => (c :: t) :: ts
      | [] => [[c]]

/-- Splits a string on single spaces, keeping empty tokens (Python
`line.split(" ")` semantics). -/
def splitSp (s : String) : List String := (splitChars ' ' s.data).map String.mk

/-- Lower-cases every character of a string (ASCII, as `str.lower` does on
header names). -/
def lowerStr (s : String) : String := String.mk (s.data.map Char.toLower)

/-- Case-insensitive header-name equality, as Python's
`email.message.Message` lookup performs it. -/
def nameEq (a b : String) : Bool := lowerStr a == lowerStr b

/-- Bool test for `needle` occurring contiguously inside `hay`; embeds
Python's `in` operator on strings (used by `compare_response_body` and
`does_print`). -/
def hasSub (needle : List Char) : List Char → Bool
  | [] => needle.isEmpty
  | c :: t => needle.isPrefixOf (c :: t) || hasSub needle t

/-- The ASCII digit character for a value below ten. -/
def digitChar : Nat → Char
  | 0 => '0'
  | 1 => '1'
  | 2 => '2'
  | 3 => '3'
  | 4 => '4'
  | 5 => '5'
  | 6 => '6'
  | 7 => '7'
  | 8 => '8'
  | _ => '9'

/-- Fuel-driven decimal rendering accumulator (structural recursion so
that the kernel can evaluate it). -/
def natToCharsAux : Nat → Nat → List Char → List Char
  | _, 0, acc => acc
  | n, fuel + 1, acc =>
    if n < 10 then digitChar n :: acc
    else natToCharsAux (n / 10) fuel (digitChar (n % 10) :: acc)

/-- Decimal digit list of a natural number, most significant first. -/
def natToChars (n : Nat) : List Char := natToCharsAux n (n + 1) []

/-- Reference decimal rendering by well-founded recursion, used only in
proofs about `natToChars`. -/
def natToCharsCore (n : Nat) : List Char :=
  if _h : n < 10 then [digitChar n]
  else natToCharsCore (n / 10) ++ [digitChar (n % 10)]
decreasing_by exact Nat.div_lt_self (by omega) (by omega)

/-- Decimal rendering of a natural number, as the server writes
`Content-Length` values. -/
def natToString (n : Nat) : String := String.mk (natToChars n)

/-- Bool test for an ASCII decimal digit. -/
def isDigitCh (c : Char) : Bool := 48 ≤ c.toNat && c.toNat ≤ 57

/-- Numeric value of an ASCII digit character. -/
def charVal (c : Char) : Nat := c.toNat - 48

/-- Value of a digit string read left to right. -/
def charsVal (cs : List Char) : Nat := cs.foldl (fun a c => a * 10 + charVal c) 0

/-- Parses a non-empty all-digit string, embedding the successful cases of
Python's `int(...)` as `verify_content_length` applies it to the
`Content-Length` header value. -/
def parseNat (s : String) : Option Nat :=
  if !s.data.isEmpty && s.data.all isDigitCh then some (charsVal s.data) else none

theorem charVal_digitChar {d : Nat} (h : d < 10) : charVal (digitChar d) = d := by
  interval_cases d <;> rfl

theorem isDigitCh_digitChar {d : Nat} (h : d < 10) : isDigitCh (digitChar d) = true := by
  interval_cases d <;> rfl

theorem natToCharsAux_eq_core (n : Nat) :
    ∀ fuel acc, n < fuel → natToCharsAux n fuel acc = natToCharsCore n ++ acc := by
  induction n using Nat.strong_induction_on with
  | _ n ih =>
    intro fuel acc hlt
    match fuel with
    | 0 => omega
    | f + 1 =>
      by_cases h10 : n < 10
      · rw [natToCharsAux, if_pos h10, natToCharsCore, dif_pos h10]
        rfl
      · rw [natToCharsAux, if_neg h10, natToCharsCore, dif_neg h10]
        rw [ih (n / 10) (Nat.div_lt_self (by omega) (by omega)) f
          (digitChar (n % 10) :: acc) (by omega)]
        simp

theorem natToChars_eq_core (n : Nat) : natToChars n = natToCharsCore n := by
  rw [natToChars, natToCharsAux_eq_core n (n + 1) [] (by omega)]
  simp

theorem charsVal_append_digit (l : List Char) (c : Char) :
    charsVal (l ++ [c]) = charsVal l * 10 + charVal c := by
  simp [charsVal, List.foldl_append]

theorem charsVal_natToCharsCore (n : Nat) : charsVal (natToCharsCore n) = n := by
  induction n using Nat.strong_induction_on with
  | _ n ih =>
    by_cases h10 : n < 10
    · rw [natToCharsCore, dif_pos h10]
      simp [charsVal, charVal_digitChar h10]
    · rw [natToCharsCore, dif_neg h10]
      rw [charsVal_append_digit, ih (n / 10) (Nat.div_lt_self (by omega) (by omega))]
      rw [charVal_digitChar (Nat.mod_lt n (by omega))]
      omega

theorem natToCharsCore_ne_nil (n : Nat) : natToCharsCore n ≠ [] := by
  by_cases h10 : n < 10
  · rw [natToCharsCore, dif_pos h10]
    simp
  · rw [natToCharsCore, dif_neg h10]
    simp

theorem natToCharsCore_all_digits (n : Nat) : (natToCharsCore n).all isDigitCh = true := by
  induction n using Nat.strong_induction_on with
  | _ n ih =>
    by_cases h10 : n < 10
    · rw [natToCharsCore, dif_pos h10]
      simp [isDigitCh_digitChar h10]
    · rw [natToCharsCore, dif_neg h10]
      simp only [List.all_append]
      rw [ih (n / 10) (Nat.div_lt_self (by omega) (by omega))]
      simp [isDigitCh_digitChar (Nat.mod_lt n (by omega))]

theorem parseNat_natToString (n : Nat) : parseNat (natToString n) = some n := by
  rw [parseNat, natToString, natToChars_eq_core]
  have hne : (natToCharsCore n).isEmpty = false := by
    cases h : natToCharsCore n with
    | nil => exact absurd h (natToCharsCore_ne_nil n)
    | cons a l => rfl
  simp only [String.data]
  rw [hne, natToCharsCore_all_digits]
  simp [charsVal_natToCharsCore]

theorem isPrefixOf_self (l : List Char) : l.isPrefixOf l = true := by
  induction l with
  | nil => rfl
  | cons a t ih => simp [List.isPrefixOf, ih]

theorem hasSub_append_self (needle pre : List Char) : hasSub needle (pre ++ needle) = true := by
  induction pre with
  | nil =>
    cases needle with
    | nil => rfl
    | cons c t => simp [hasSub, isPrefixOf_self]
  | cons c p ih => simp [hasSub, ih]

/-- An HTTP response as the harness observes it: status code, reason
phrase, header fields in wire order, body bytes (spec §3). -/
structure HttpResponse where
  status : Nat
  reason : String
  headers : List (String × String)
  body : List Nat
deriving DecidableEq

/-- First occurrence of a header by case-insensitive name, as Python's
`Message.__getitem__` resolves `res.headers[name]` in httptest.py. -/
def lookupHeader : List (String × String) → String → Option String
  | [], _ => none
  | (n, v) :: rest, name => if nameEq n name then some v else lookupHeader rest name

/-- Pass condition of `HttpTest.in_response_header` (httptest.py:283-327):
the test passes iff the named field is present and its (first) value is
exactly the expected one. -/
def in_response_header_ok (headers : List (String × String)) (name value : String) : Bool :=
  match lookupHeader headers name with
  | some v => v == value
  | none => false

/-- Pass condition of `HttpTest.notin_response_header`
(httptest.py:330-359): the test fails iff `name` is present with exactly
the value `value`, and passes otherwise. -/
def notin_response_header_ok (headers : List (String × String)) (name value : String) : Bool :=
  match lookupHeader headers name with
  | some v => !(value == v)
  | none => true

/-- Pass condition of `HttpTest.verify_content_length`
(httptest.py:363-393): `Content-Length` must be present and parse to the
byte count of the body as received. -/
def verify_content_length_ok (headers : List (String × String)) (bodyLen : Nat) : Bool :=
  match lookupHeader headers "Content-Length" with
  | some v => parseNat v == some bodyLen
  | none => false

/-- Gzip framing, modelled from the spec: the zlib compression the server
may apply is external code, embedded abstractly as an injective framing
(the two gzip magic bytes in front of the payload) whose left inverse is
`gzipDecompress`, which is all `compare_response_body` relies on. -/
def gzipCompress (b : List Nat) : List Nat := 31 :: 139 :: b

/-- Left inverse of `gzipCompress`; stands in for
`zlib.decompressobj(...).decompress` in httptest.py:417-418. -/
def gzipDecompress (b : List Nat) : List Nat := b.drop 2

/-- Pass condition of `HttpTest.compare_response_body`
(httptest.py:397-441): if a `Content-Encoding` field containing "gzip" is
present the raw body is decompressed first, then the result must equal
the reference file's bytes. -/
def compare_response_body_ok (headers : List (String × String))
    (rawBody content : List Nat) : Bool :=
  let body :=
    match lookupHeader headers "Content-Encoding" with
    | some v => if hasSub "gzip".data v.data then gzipDecompress rawBody else rawBody
    | none => rawBody
  body == content

/-- Pass condition of `HttpTest.is_statuscode` (httptest.py:446-487). -/
def is_statuscode_ok (resp : HttpResponse) (status : Nat) : Bool :=
  resp.status == status

/-- Pass condition of `HttpTest.does_print` (httptest.py:490-514): the
expected phrase must occur in the command's combined output. -/
def does_print_ok (output phrase : String) : Bool := hasSub phrase.data output.data

/-- Version predicate the specification text states (§3: "enumerated
{1.0, 1.1}; any other token is a parse failure"), kept for comparison
with the behaviour the harness demands. -/
def validVersion_specText (v : String) : Bool := v == "HTTP/1.0" || v == "HTTP/1.1"

/-- Version predicate the harness actually enforces: servertest.py:204-212
requires a request line `GET / HTTP/1.0` to be answered with 400, so only
`HTTP/1.1` is a valid version token. -/
def validVersion (v : String) : Bool := v == "HTTP/1.1"

/-- Weekday abbreviation for `%a`, day 0 being Sunday. -/
def weekdayName : Nat → String
  | 0 => "Sun"
  | 1 => "Mon"
  | 2 => "Tue"
  | 3 => "Wed"
  | 4 => "Thu"
  | 5 => "Fri"
  | _ => "Sat"

/-- Month abbreviation for `%b`, months numbered from 1. -/
def monthName : Nat → String
  | 1 => "Jan"
  | 2 => "Feb"
  | 3 => "Mar"
  | 4 => "Apr"
  | 5 => "May"
  | 6 => "Jun"
  | 7 => "Jul"
  | 8 => "Aug"
  | 9 => "Sep"
  | 10 => "Oct"
  | 11 => "Nov"
  | _ => "Dec"

/-- Two-digit zero-padded decimal rendering, as `%d`, `%y`, `%H`, `%M`,
`%S` produce. -/
def pad2 (n : Nat) : String := if n < 10 then "0" ++ natToString n else natToString n

/-- Gregorian civil date (year, month, day) of a day count since
1970-01-01, by the standard era-based conversion; valid for days at or
after the epoch. -/
def civilFromDays (days : Nat) : Nat × Nat × Nat :=
  let z := days + 719468
  let era := z / 146097
  let doe := z % 146097
  let yoe := (doe + doe / 36524 - doe / 1460 - doe / 146096) / 365
  let y := yoe + era * 400
  let doy := doe - (365 * yoe + yoe / 4 - yoe / 100)
  let mp := (5 * doy + 2) / 153
  let d := doy - (153 * mp + 2) / 5 + 1
  let m := if mp < 10 then mp + 3 else mp - 9
  (if m ≤ 2 then y + 1 else y, m, d)

/-- Date header value, modelled from the spec (`Date`, current time,
RFC-1123-style format): renders a Unix timestamp with the format string
`%a, %d %b %y %T %Z` over `gmtime` that servertest.py:41 compares
against (note the two-digit `%y` year). -/
def formatDate (now : Nat) : String :=
  let days := now / 86400
  let secs := now % 86400
  let c := civilFromDays days
  weekdayName ((days + 4) % 7) ++ ", " ++ pad2 c.2.2 ++ " " ++ monthName c.2.1 ++ " " ++
    pad2 (c.1 % 100) ++ " " ++ pad2 (secs / 3600) ++ ":" ++ pad2 (secs % 3600 / 60) ++ ":" ++
    pad2 (secs % 60) ++ " GMT"

/-- Suffix test on strings, for `Content-Type` inference from the file
extension. -/
def endsWithStr (suffix s : String) : Bool := suffix.data.reverse.isPrefixOf s.data.reverse

/-- Content type inferred from the request target's extension, modelled
from the spec (§4.3: `.html` → text/html, `.js` → application/javascript,
`.css` → text/css, else none of the mapped types). -/
def contentTypeFor (target : String) : Option String :=
  if endsWithStr ".html" target then some "text/html"
  else if endsWithStr ".js" target then some "application/javascript"
  else if endsWithStr ".css" target then some "text/css"
  else none

/-- Document root contents: resolved absolute request paths paired with
file bytes. -/
def DocRoot : Type := List (String × List Nat)

/-- Resource resolution, modelled from the spec (§4.3): `/` maps to
`/index.html` under the root, any other target to the file stored for it;
an absent file is a 404. -/
def resolve (docroot : DocRoot) (target : String) : Option (List Nat) :=
  let path := if target == "/" then "/index.html" else target
  List.lookup path docroot

/-- Whether the request declares gzip support, modelled from the spec
(§4.3 content negotiation; the harness sends `Accept-Encoding: gzip`). -/
def acceptsGzip (reqHeaders : List (String × String)) : Bool :=
  match lookupHeader reqHeaders "Accept-Encoding" with
  | some v => hasSub "gzip".data v.data
  | none => false

/-- The well-formed 400 response (spec §4.1 failure policy). -/
def badRequestResponse : HttpResponse :=
  { status := 400, reason := "Bad Request", headers := [("Connection", "close")], body := [] }

/-- The 501 response for non-GET methods (spec §4.3). -/
def notImplementedResponse : HttpResponse :=
  { status := 501, reason := "Not Implemented", headers := [("Connection", "close")], body := [] }

/-- The 404 response, its body carrying the human-readable phrase
(spec §4.3). -/
def notFoundResponse : HttpResponse :=
  { status := 404, reason := "Not Found", headers := [("Connection", "close")],
    body := ("404 Not Found".data.map Char.toNat) }

/-- The 200 response for a resolved resource, modelled from the spec
(§4.3): `Connection: close` and an exact `Content-Length` always;
`Content-Encoding: gzip` with a compressed body only when the request
declared gzip support; `Content-Type` and `Date` as enhancement
headers. -/
def okResponse (now : Nat) (target : String) (gz : Bool) (content : List Nat) : HttpResponse :=
  let body := if gz then gzipCompress content else content
  { status := 200, reason := "OK",
    headers :=
      [("Connection", "close"), ("Content-Length", natToString body.length)] ++
        (if gz then [("Content-Encoding", "gzip")] else []) ++
        (match contentTypeFor target with
          | some ct => [("Content-Type", ct)]
          | none => []) ++
        [("Date", formatDate now)],
    body := body }

/-- One request/response exchange of the server, modelled from the spec
(§4.1-§4.3; the server itself is not in the repository): the request line
is split on single spaces into exactly three tokens, the version token
must be valid (only `HTTP/1.1`, as servertest.py:204-212 demands 400 for
`HTTP/1.0`), a non-GET method yields 501 regardless of the resource, an
unresolvable target yields 404, and otherwise the file is served, gzipped
exactly when the request accepts gzip. -/
def serverHandle (docroot : DocRoot) (now : Nat) (line : String)
    (reqHeaders : List (String × String)) : HttpResponse :=
  match splitSp line with
  | [method, target, version] =>
    if !validVersion version then badRequestResponse
    else if method != "GET" then notImplementedResponse
    else
      match resolve docroot target with
      | none => notFoundResponse
      | some content => okResponse now target (acceptsGzip reqHeaders) content
  | _ => badRequestResponse

/-- The four deliberately bad request lines servertest.py:204-242 sends,
each paired with the status the harness requires. -/
def servertestBadRequests : List (String × Nat) :=
  [("GET / HTTP/1.0", 400),
   ("GET / HTTP/1.3", 400),
   ("GET HTTP/1.1", 400),
   ("GET / HTTP/1.1 supersecrethiddenfieldthatshouldnotbeaccepted", 400)]

/-- The non-GET methods servertest.py:177-200 sends, all of which must be
answered with 501. -/
def servertestNonGetMethods : List String :=
  ["HEAD", "POST", "PUT", "DELETE", "CONNECT", "OPTIONS", "TRACE", "PATCH"]

/-- Parsed client invocation: optional port, optional output file,
optional output directory, and the request URL (spec §6). -/
structure ClientConfig where
  port : Option String
  outFile : Option String
  outDir : Option String
  url : String
deriving DecidableEq

/-- Prefix test on strings, for the `http://` scheme check. -/
def startsWithStr (pre s : String) : Bool := pre.data.isPrefixOf s.data

/-- Argument scan of the client, modelled from the spec (§6): `-p`, `-o`
and `-d` each take the following argument as their value (a trailing flag
with nothing after it is an error), repeating `-o` or `-d` is an error,
and everything else is the positional URL, of which there must be exactly
one. -/
def parseArgsLoop : List String → Option String → Option String → Option String →
    Option String → Option ClientConfig
  | [], port, ofile, odir, some url => some ⟨port, ofile, odir, url⟩
  | [], _, _, _, none => none
  | "-p" :: rest, port, ofile, odir, url =>
    match rest with
    | [] => none
    | v :: rest' =>
      if port.isSome then none else parseArgsLoop rest' (some v) ofile odir url
  | "-o" :: rest, port, ofile, odir, url =>
    match rest with
    | [] => none
    | v :: rest' =>
      if ofile.isSome then none else parseArgsLoop rest' port (some v) odir url
  | "-d" :: rest, port, ofile, odir, url =>
    match rest with
    | [] => none
    | v :: rest' =>
      if odir.isSome then none else parseArgsLoop rest' port ofile (some v) url
  | a :: rest, port, ofile, odir, url =>
    if url.isSome then none else parseArgsLoop rest port ofile odir (some a)

/-- Client argument validation, modelled from the spec (§6, §4.4): the
URL must carry the `http://` scheme and at most one of `-o`/`-d` may be
given; `none` is a usage error (exit code 1). -/
def parseArgs (args : List String) : Option ClientConfig :=
  match parseArgsLoop args none none none none with
  | none => none
  | some cfg =>
    if startsWithStr "http://" cfg.url && !(cfg.outFile.isSome && cfg.outDir.isSome) then
      some cfg
    else none

/-- One client run against the response the server sent, modelled from
the spec (§6, §7): usage errors exit 1 before any transfer; a 200 status
exits 0; any other status is reported on the combined output with the
status line phrase (e.g. `404 Not Found`, as clienttest.py:37-41 demands
together with exit code 3) and exits 3. The pair is (exit code, combined
output). -/
def clientRun (args : List String) (resp : HttpResponse) : Nat × String :=
  match parseArgs args with
  | none => (1, "Usage: client [-p PORT] [-o FILE | -d DIR] URL")
  | some _ =>
    if resp.status == 200 then (0, "")
    else (3, "Request failed: " ++ (natToString resp.status ++ " " ++ resp.reason))

theorem serverHandle_get_eq (d : DocRoot) (now : Nat) (line : String)
    (hs : List (String × String)) (t : String) (content : List Nat)
    (hline : splitSp line = ["GET", t, "HTTP/1.1"])
    (hres : resolve d t = some content) :
    serverHandle d now line hs = okResponse now t (acceptsGzip hs) content := by
  unfold serverHandle
  rw [hline]
  simp [validVersion, hres]

theorem lookupHeader_ok_connection (now : Nat) (t : String) (gz : Bool) (content : List Nat) :
    lookupHeader (okResponse now t gz content).headers "Connection" = some "close" := rfl

theorem lookupHeader_ok_cl (now : Nat) (t : String) (gz : Bool) (content : List Nat) :
    lookupHeader (okResponse now t gz content).headers "Content-Length" =
      some (natToString (okResponse now t gz content).body.length) := rfl

theorem lookupHeader_ok_ce_true (now : Nat) (t : String) (content : List Nat) :
    lookupHeader (okResponse now t true content).headers "Content-Encoding" = some "gzip" := rfl

theorem lookupHeader_ok_ce_false (now : Nat) (t : String) (content : List Nat) :
    lookupHeader (okResponse now t false content).headers "Content-Encoding" = none := by
  unfold okResponse
  cases hct : contentTypeFor t <;> simp [hct] <;> rfl

theorem lookupHeader_ok_date (now : Nat) (t : String) (gz : Bool) (content : List Nat) :
    lookupHeader (okResponse now t gz content).headers "Date" = some (formatDate now) := by
  unfold okResponse
  cases gz <;> cases hct : contentTypeFor t <;> simp [hct] <;> rfl

theorem okResponse_status (now : Nat) (t : String) (gz : Bool) (content : List Nat) :
    (okResponse now t gz content).status = 200 := rfl

theorem okResponse_body (now : Nat) (t : String) (gz : Bool) (content : List Nat) :
    (okResponse now t gz content).body = if gz then gzipCompress content else content := rfl

/-- C10: `HttpTest.notin_response_header` fails the test exactly when the
named header field is present (first occurrence, case-insensitive) with a
value equal to the given one; an absent header, or one with any other
value — e.g. `gzip, identity` checked against `gzip` — makes the test
pass. -/
theorem notin_header_fails_iff_exact :
    (∀ (headers : List (String × String)) (name value : String),
      notin_response_header_ok headers name value = false ↔
        lookupHeader headers name = some value) ∧
    notin_response_header_ok [("Content-Encoding", "gzip, identity")]
      "Content-Encoding" "gzip" = true ∧
    notin_response_header_ok [("Content-Encoding", "gzip")] "Content-Encoding" "gzip" = false ∧
    notin_response_header_ok [] "Content-Encoding" "gzip" = true := by
  refine ⟨?_, by decide, by decide, by decide⟩
  intro headers name value
  unfold notin_response_header_ok
  cases h : lookupHeader headers name with
  | none => simp
  | some v =>
    simp only [Bool.not_eq_false', beq_iff_eq, Option.some.injEq]
    exact ⟨fun he => he ▸ rfl, fun he => (Option.some.injEq v value ▸ he : v = value).symm⟩

/-- C1 counterexample: the spec's version rule accepts `HTTP/1.0`, yet the
harness (servertest.py:204-212) requires the well-formed request line
`GET / HTTP/1.0` to be answered with status 400, and the modelled server
does answer 400 there. -/
theorem http10_rejected_counterexample :
    ("GET / HTTP/1.0", 400) ∈ servertestBadRequests ∧
    splitSp "GET / HTTP/1.0" = ["GET", "/", "HTTP/1.0"] ∧
    validVersion_specText "HTTP/1.0" = true ∧
    (serverHandle [("/index.html", [104, 105])] 0 "GET / HTTP/1.0" []).status = 400 := by
  decide

/-- C1 (amended): only the literal `HTTP/1.1` is accepted as the version
token of a well-formed request line; any other literal — `HTTP/1.0`
included — yields a 400 response, and every bad request line of
servertest.py:204-242 receives the status the harness expects. -/
theorem only_http11_version_accepted :
    (∀ (d : DocRoot) (now : Nat) (line : String) (hs : List (String × String)) (m t v : String),
      splitSp line = [m, t, v] →
      ((serverHandle d now line hs).status = 400 ↔ v ≠ "HTTP/1.1")) ∧
    (∀ (d : DocRoot) (now : Nat) (hs : List (String × String)),
      ∀ p ∈ servertestBadRequests, (serverHandle d now p.1 hs).status = p.2) := by
  constructor
  · intro d now line hs m t v hline
    unfold serverHandle
    rw [hline]
    by_cases hv : v = "HTTP/1.1"
    · subst hv
      simp only [validVersion, beq_self_eq_true, Bool.not_true, Bool.false_eq_true, if_false]
      by_cases hm : m = "GET"
      · subst hm
        simp only [bne_self_eq_false, Bool.false_eq_true, if_false]
        cases hr : resolve d t with
        | none => simp [notFoundResponse]
        | some content => simp [okResponse_status]
      · have : (m != "GET") = true := by simp [hm]
        simp [this, notImplementedResponse]
    · have : (v == "HTTP/1.1") = false := beq_eq_false_iff_ne.mpr hv
      simp [validVersion, this, badRequestResponse, hv]
  · intro d now hs p hp
    simp only [servertestBadRequests, List.mem_cons, List.not_mem_nil, or_false] at hp
    rcases hp with h | h | h | h <;> subst h <;> rfl

/-- C1 (amended) witness at the request line `GET / HTTP/1.3`. -/
theorem only_http11_version_accepted_witness :
    (serverHandle [] 0 "GET / HTTP/1.3" []).status = 400 :=
  (only_http11_version_accepted.1 [] 0 "GET / HTTP/1.3" [] "GET" "/" "HTTP/1.3"
    (by decide)).mpr (by decide)

/-- C5: a request line that does not split on single spaces into exactly
three tokens is answered with the well-formed 400 response, which carries
`Connection: close`; the handler is a total function, so it neither
crashes nor hangs. -/
theorem wrong_token_count_yields_400 :
    ∀ (d : DocRoot) (now : Nat) (line : String) (hs : List (String × String)),
      (splitSp line).length ≠ 3 →
      serverHandle d now line hs = badRequestResponse ∧
      (serverHandle d now line hs).status = 400 ∧
      lookupHeader (serverHandle d now line hs).headers "Connection" = some "close" := by
  intro d now line hs h
  have hbad : serverHandle d now line hs = badRequestResponse := by
    unfold serverHandle
    split
    · rename_i m t v heq
      rw [heq] at h
      simp at h
    · rfl
  exact ⟨hbad, by rw [hbad]; rfl, by rw [hbad]; rfl⟩

/-- C5 witness at the two-token request line `GET HTTP/1.1`
(servertest.py:224). -/
theorem wrong_token_count_yields_400_witness :
    serverHandle [] 0 "GET HTTP/1.1" [] = badRequestResponse ∧
    (serverHandle [] 0 "GET HTTP/1.1" []).status = 400 ∧
    lookupHeader (serverHandle [] 0 "GET HTTP/1.1" []).headers "Connection" = some "close" :=
  wrong_token_count_yields_400 [] 0 "GET HTTP/1.1" [] (by decide)

/-- C4: a well-formed request line whose method token is anything but
`GET` is answered with 501 Not Implemented for every document root, so
regardless of whether the resource exists; in particular each of the
methods servertest.py:177-200 sends gets 501. -/
theorem non_get_method_yields_501 :
    (∀ (d : DocRoot) (now : Nat) (line : String) (hs : List (String × String)) (m t : String),
      splitSp line = [m, t, "HTTP/1.1"] → m ≠ "GET" →
      (serverHandle d now line hs).status = 501 ∧
      is_statuscode_ok (serverHandle d now line hs) 501 = true) ∧
    (∀ (d : DocRoot) (now : Nat) (hs : List (String × String)),
      ∀ m ∈ servertestNonGetMethods,
        (serverHandle d now (m ++ " /index.html HTTP/1.1") hs).status = 501) := by
  constructor
  · intro d now line hs m t hline hm
    have hresp : serverHandle d now line hs = notImplementedResponse := by
      unfold serverHandle
      rw [hline]
      have : (m != "GET") = true := by simp [hm]
      simp [validVersion, this]
    rw [hresp]
    exact ⟨rfl, rfl⟩
  · intro d now hs m hm
    simp only [servertestNonGetMethods, List.mem_cons, List.not_mem_nil, or_false] at hm
    rcases hm with h | h | h | h | h | h | h | h <;> subst h <;> rfl

/-- C4 witness at `POST /index.html HTTP/1.1` against a root that does
contain `/index.html`. -/
theorem non_get_method_yields_501_witness :
    (serverHandle [("/index.html", [1, 2])] 0 "POST /index.html HTTP/1.1" []).status = 501 ∧
    is_statuscode_ok (serverHandle [("/index.html", [1, 2])] 0 "POST /index.html HTTP/1.1" [])
      501 = true :=
  non_get_method_yields_501.1 [("/index.html", [1, 2])] 0 "POST /index.html HTTP/1.1" []
    "POST" "/index.html" (by decide) (by decide)

/-- C2: a valid GET for a resource the document root resolves is answered
with status 200, and the body — compared byte for byte, with no text
assumption, by the `compare_response_body` check of httptest.py:397-441 —
equals the file's bytes, after gzip decompression whenever the response
declares gzip content encoding. -/
theorem get_existing_resource_roundtrip :
    ∀ (d : DocRoot) (now : Nat) (line : String) (hs : List (String × String))
      (t : String) (content : List Nat),
      splitSp line = ["GET", t, "HTTP/1.1"] →
      resolve d t = some content →
      (serverHandle d now line hs).status = 200 ∧
      is_statuscode_ok (serverHandle d now line hs) 200 = true ∧
      compare_response_body_ok (serverHandle d now line hs).headers
        (serverHandle d now line hs).body content = true := by
  intro d now line hs t content hline hres
  rw [serverHandle_get_eq d now line hs t content hline hres]
  refine ⟨okResponse_status now t _ content, rfl, ?_⟩
  unfold compare_response_body_ok
  cases hgz : acceptsGzip hs
  · rw [lookupHeader_ok_ce_false, okResponse_body]
    simp
  · rw [lookupHeader_ok_ce_true, okResponse_body]
    have hgg : hasSub "gzip".data "gzip".data = true := by decide
    simp [hgg, gzipCompress, gzipDecompress]

/-- C2 witness: `GET /` with and without gzip acceptance against a root
holding `/index.html`. -/
theorem get_existing_resource_roundtrip_witness :
    (serverHandle [("/index.html", [10, 0, 255])] 7 "GET / HTTP/1.1"
      [("Accept-Encoding", "gzip")]).status = 200 ∧
    is_statuscode_ok (serverHandle [("/index.html", [10, 0, 255])] 7 "GET / HTTP/1.1"
      [("Accept-Encoding", "gzip")]) 200 = true ∧
    compare_response_body_ok
      (serverHandle [("/index.html", [10, 0, 255])] 7 "GET / HTTP/1.1"
        [("Accept-Encoding", "gzip")]).headers
      (serverHandle [("/index.html", [10, 0, 255])] 7 "GET / HTTP/1.1"
        [("Accept-Encoding", "gzip")]).body [10, 0, 255] = true :=
  get_existing_resource_roundtrip [("/index.html", [10, 0, 255])] 7 "GET / HTTP/1.1"
    [("Accept-Encoding", "gzip")] "/" [10, 0, 255] (by decide) (by decide)

/-- C3: every successful GET response carries a `Content-Length` whose
parsed value is exactly the byte count of the body as sent (the
`verify_content_length` check of httptest.py:363-393 passes) and a
`Connection: close` field. -/
theorem success_content_length_and_close :
    ∀ (d : DocRoot) (now : Nat) (line : String) (hs : List (String × String))
      (t : String) (content : List Nat),
      splitSp line = ["GET", t, "HTTP/1.1"] →
      resolve d t = some content →
      verify_content_length_ok (serverHandle d now line hs).headers
        (serverHandle d now line hs).body.length = true ∧
      lookupHeader (serverHandle d now line hs).headers "Connection" = some "close" ∧
      in_response_header_ok (serverHandle d now line hs).headers "Connection" "close" = true := by
  intro d now line hs t content hline hres
  rw [serverHandle_get_eq d now line hs t content hline hres]
  refine ⟨?_, lookupHeader_ok_connection now t _ content, ?_⟩
  · unfold verify_content_length_ok
    rw [lookupHeader_ok_cl]
    simp [parseNat_natToString]
  · unfold in_response_header_ok
    rw [lookupHeader_ok_connection]
    rfl

/-- C3 witness at `GET /countdown.js` with a gzip-accepting request, where
the sent body is the compressed one. -/
theorem success_content_length_and_close_witness :
    verify_content_length_ok
      (serverHandle [("/countdown.js", [1, 2, 3, 4])] 5 "GET /countdown.js HTTP/1.1"
        [("Accept-Encoding", "gzip")]).headers
      (serverHandle [("/countdown.js", [1, 2, 3, 4])] 5 "GET /countdown.js HTTP/1.1"
        [("Accept-Encoding", "gzip")]).body.length = true ∧
    lookupHeader (serverHandle [("/countdown.js", [1, 2, 3, 4])] 5 "GET /countdown.js HTTP/1.1"
      [("Accept-Encoding", "gzip")]).headers "Connection" = some "close" ∧
    in_response_header_ok
      (serverHandle [("/countdown.js", [1, 2, 3, 4])] 5 "GET /countdown.js HTTP/1.1"
        [("Accept-Encoding", "gzip")]).headers "Connection" "close" = true :=
  success_content_length_and_close [("/countdown.js", [1, 2, 3, 4])] 5
    "GET /countdown.js HTTP/1.1" [("Accept-Encoding", "gzip")] "/countdown.js" [1, 2, 3, 4]
    (by decide) (by decide)

/-- C8: on a successful GET the response declares `Content-Encoding: gzip`
exactly when the request declared gzip acceptance; a declared encoding is
always actually applied to the body, and a request without gzip
acceptance gets the raw file bytes with no `Content-Encoding` field (so
the `notin_response_header` check of servertest.py:72-78 passes). -/
theorem gzip_negotiation_sound :
    ∀ (d : DocRoot) (now : Nat) (line : String) (hs : List (String × String))
      (t : String) (content : List Nat),
      splitSp line = ["GET", t, "HTTP/1.1"] →
      resolve d t = some content →
      ((lookupHeader (serverHandle d now line hs).headers "Content-Encoding" = some "gzip") ↔
        acceptsGzip hs = true) ∧
      (serverHandle d now line hs).body =
        (if acceptsGzip hs then gzipCompress content else content) ∧
      (acceptsGzip hs = false →
        notin_response_header_ok (serverHandle d now line hs).headers
          "Content-Encoding" "gzip" = true ∧
        (serverHandle d now line hs).body = content) := by
  intro d now line hs t content hline hres
  rw [serverHandle_get_eq d now line hs t content hline hres]
  cases hgz : acceptsGzip hs
  · refine ⟨?_, okResponse_body now t false content, ?_⟩
    · rw [lookupHeader_ok_ce_false]
      simp
    · intro _
      refine ⟨?_, by rw [okResponse_body]; simp⟩
      unfold notin_response_header_ok
      rw [lookupHeader_ok_ce_false]
  · refine ⟨?_, okResponse_body now t true content, ?_⟩
    · rw [lookupHeader_ok_ce_true]
      simp
    · intro hcontra
      simp at hcontra

/-- C8 witness at a request without `Accept-Encoding: gzip`. -/
theorem gzip_negotiation_sound_witness :
    ((lookupHeader (serverHandle [("/index.html", [9])] 0 "GET / HTTP/1.1" []).headers
        "Content-Encoding" = some "gzip") ↔ acceptsGzip [] = true) ∧
    (serverHandle [("/index.html", [9])] 0 "GET / HTTP/1.1" []).body =
      (if acceptsGzip [] then gzipCompress [9] else [9]) ∧
    (acceptsGzip [] = false →
      notin_response_header_ok (serverHandle [("/index.html", [9])] 0 "GET / HTTP/1.1" []).headers
        "Content-Encoding" "gzip" = true ∧
      (serverHandle [("/index.html", [9])] 0 "GET / HTTP/1.1" []).body = [9]) :=
  gzip_negotiation_sound [("/index.html", [9])] 0 "GET / HTTP/1.1" [] "/" [9]
    (by decide) (by decide)

/-- C9: a successful GET response carries a `Date` field whose value is
the shared wall clock rendered in the `%a, %d %b %y %T %Z` format
servertest.py:41-42 expects (RFC-1123 style, with a two-digit year), as
the two concrete renderings ground. -/
theorem date_header_matches_clock :
    (∀ (d : DocRoot) (now : Nat) (line : String) (hs : List (String × String))
      (t : String) (content : List Nat),
      splitSp line = ["GET", t, "HTTP/1.1"] →
      resolve d t = some content →
      lookupHeader (serverHandle d now line hs).headers "Date" = some (formatDate now) ∧
      in_response_header_ok (serverHandle d now line hs).headers "Date"
        (formatDate now) = true) ∧
    formatDate 0 = "Thu, 01 Jan 70 00:00:00 GMT" ∧
    formatDate 1609459199 = "Thu, 31 Dec 20 23:59:59 GMT" := by
  refine ⟨?_, by decide, by decide⟩
  intro d now line hs t content hline hres
  rw [serverHandle_get_eq d now line hs t content hline hres]
  refine ⟨lookupHeader_ok_date now t _ content, ?_⟩
  unfold in_response_header_ok
  rw [lookupHeader_ok_date]
  simp

/-- C9 witness at clock value 1609459199. -/
theorem date_header_matches_clock_witness :
    lookupHeader (serverHandle [("/index.html", [3])] 1609459199 "GET / HTTP/1.1" []).headers
      "Date" = some (formatDate 1609459199) ∧
    in_response_header_ok
      (serverHandle [("/index.html", [3])] 1609459199 "GET / HTTP/1.1" []).headers
      "Date" (formatDate 1609459199) = true :=
  date_header_matches_clock.1 [("/index.html", [3])] 1609459199 "GET / HTTP/1.1" [] "/" [3]
    (by decide) (by decide)

theorem strData_append (a b : String) : (a ++ b).data = a.data ++ b.data := by
  cases a
  cases b
  rfl

/-- C6: the client's exit-code taxonomy as the spec and clienttest.py pin
it. A usage error — and in particular each of the harness's concrete
invocations: URL without the `http://` scheme, a flag swallowing the URL
so that no positional argument remains, conflicting `-o`/`-d`, repeated
`-d`, repeated `-o` — exits 1; a 200 response exits 0; a 404 response
exits 3; and on any non-200 response the status line phrase (for 404,
`404 Not Found`) occurs in the combined output, as the `does_print` check
demands. -/
theorem client_exit_code_taxonomy :
    (∀ (args : List String) (resp : HttpResponse),
      parseArgs args = none → (clientRun args resp).1 = 1) ∧
    (∀ (args : List String) (cfg : ClientConfig) (resp : HttpResponse),
      parseArgs args = some cfg → resp.status = 200 → (clientRun args resp).1 = 0) ∧
    (∀ (args : List String) (cfg : ClientConfig) (resp : HttpResponse),
      parseArgs args = some cfg → resp.status = 404 → (clientRun args resp).1 = 3) ∧
    (∀ (args : List String) (cfg : ClientConfig) (resp : HttpResponse),
      parseArgs args = some cfg → resp.status ≠ 200 →
      does_print_ok (clientRun args resp).2
        (natToString resp.status ++ " " ++ resp.reason) = true) ∧
    parseArgs ["-p", "80", "localhost/"] = none ∧
    parseArgs ["-p", "http://pan.vmars.tuwien.ac.at/osue/"] = none ∧
    parseArgs ["-o", "http://pan.vmars.tuwien.ac.at/osue/"] = none ∧
    parseArgs ["-d", "http://pan.vmars.tuwien.ac.at/osue/"] = none ∧
    parseArgs ["-p", "80", "-d", "__tmp", "-o", "__tmp/index.html",
      "http://pan.vmars.tuwien.ac.at/osue/"] = none ∧
    parseArgs ["-p", "80", "-d", "__tmp", "-d", "__tmp/",
      "http://pan.vmars.tuwien.ac.at/osue/"] = none ∧
    parseArgs ["-p", "80", "-o", "__tmp/index.html", "-o", "__tmp/index.html",
      "http://pan.vmars.tuwien.ac.at/osue/"] = none ∧
    parseArgs ["-p", "80", "http://pan.vmars.tuwien.ac.at/osue/"] =
      some ⟨some "80", none, none, "http://pan.vmars.tuwien.ac.at/osue/"⟩ := by
  refine ⟨?_, ?_, ?_, ?_, by decide, by decide, by decide, by decide, by decide, by decide,
    by decide, by decide⟩
  · intro args resp h
    unfold clientRun
    rw [h]
  · intro args cfg resp h hst
    unfold clientRun
    rw [h, hst]
    rfl
  · intro args cfg resp h hst
    unfold clientRun
    rw [h, hst]
    rfl
  · intro args cfg resp h hst
    unfold clientRun
    rw [h]
    have : (resp.status == 200) = false := beq_eq_false_iff_ne.mpr hst
    rw [this]
    unfold does_print_ok
    rw [strData_append]
    exact hasSub_append_self _ _

/-- C6 witness: a scheme-less URL exits 1; a 404 response exits 3 and the
phrase `404 Not Found` appears in the output. -/
theorem client_exit_code_taxonomy_witness :
    (clientRun ["-p", "80", "localhost/"] ⟨200, "OK", [], []⟩).1 = 1 ∧
    (clientRun ["-p", "80", "http://pan.vmars.tuwien.ac.at/osue/"]
      ⟨404, "Not Found", [], []⟩).1 = 3 ∧
    does_print_ok
      (clientRun ["-p", "80", "http://pan.vmars.tuwien.ac.at/osue/"]
        ⟨404, "Not Found", [], []⟩).2
      (natToString 404 ++ " " ++ "Not Found") = true :=
  ⟨client_exit_code_taxonomy.1 ["-p", "80", "localhost/"] ⟨200, "OK", [], []⟩ (by decide),
   client_exit_code_taxonomy.2.2.1 ["-p", "80", "http://pan.vmars.tuwien.ac.at/osue/"]
     ⟨some "80", none, none, "http://pan.vmars.tuwien.ac.at/osue/"⟩
     ⟨404, "Not Found", [], []⟩ (by decide) rfl,
   client_exit_code_taxonomy.2.2.2.1 ["-p", "80", "http://pan.vmars.tuwien.ac.at/osue/"]
     ⟨some "80", none, none, "http://pan.vmars.tuwien.ac.at/osue/"⟩
     ⟨404, "Not Found", [], []⟩ (by decide) (by decide)⟩
